import Mathlib

/-!
Verification development for the entity-relational metadata framework of
the sp2genius repository (src/sp2genius/database/core/base.py,
src/sp2genius/database/core/typing.py, src/sp2genius/database/core/utils.py).

The Python code is shallowly embedded: pure functions become Lean
functions, Python exceptions become an explicit error type carried in
Except, and the SQLite store touched by the persistence operations is
modelled as a list of rows keyed by the entity's primary-key columns.
-/

namespace Sp2Genius

/-- Python logical types used as FieldMeta.py_type in this repository's
table declarations, plus NoneType (the type of None, which
_validate_table_meta rejects as a py_type).  Embeds the py_type values
relevant to the framework; isinstance is modelled by instanceOfV below. -/
inductive PyType where
  | pyInt
  | pyStr
  | pyBool
  | pyNoneType
deriving DecidableEq, Repr

/-- FieldMeta from src/sp2genius/database/core/typing.py lines 15-18:
a frozen dataclass holding py_type and nullable. -/
structure FieldMeta where
  py_type : PyType
  nullable : Bool
deriving DecidableEq, Repr

/-- Scalar Python values stored in entity instance fields, together with
the UNSET sentinel (the _UnsetType singleton of typing.py lines 32-36,
exported as UNSET in constants.py line 6). -/
inductive Value where
  | vInt (n : Int)
  | vStr (s : String)
  | vBool (b : Bool)
  | vNone
  | unsetV
deriving DecidableEq, Repr

/-- Python isinstance on the scalar values above.  bool is a subclass of
int in Python, so vBool is an instance of pyInt as well.  The UNSET
sentinel is an instance of none of the listed types. -/
def instanceOfV : Value → PyType → Bool
  | .vInt _, .pyInt => true
  | .vStr _, .pyStr => true
  | .vBool _, .pyBool => true
  | .vBool _, .pyInt => true
  | .vNone, .pyNoneType => true
  | _, _ => false

/-- FieldMeta.allowed_types (typing.py lines 20-23): the declared type,
plus NoneType when the field is nullable. -/
def FieldMeta.allowed_types (fm : FieldMeta) : List PyType :=
  if fm.nullable then [fm.py_type, .pyNoneType] else [fm.py_type]

/-- FieldMeta.is_valid_value (typing.py lines 25-26):
isinstance(value, allowed_types). -/
def FieldMeta.is_valid_value (fm : FieldMeta) (v : Value) : Bool :=
  fm.allowed_types.any (fun t => instanceOfV v t)

/-! Identifier validation, from src/sp2genius/database/core/utils.py. -/

/-- The Python hard keywords recognised by keyword.iskeyword. -/
def pyKeywords : List String :=
  ["False", "None", "True", "and", "as", "assert", "async", "await",
   "break", "class", "continue", "def", "del", "elif", "else", "except",
   "finally", "for", "from", "global", "if", "import", "in", "is",
   "lambda", "nonlocal", "not", "or", "pass", "raise", "return", "try",
   "while", "with", "yield"]

/-- First character of a Python identifier (ASCII fragment of
str.isidentifier: letters and underscore). -/
def isIdentStart (c : Char) : Bool := c.isAlpha || c == '_'

/-- Continuation character of a Python identifier (ASCII fragment of
str.isidentifier: letters, digits and underscore). -/
def isIdentCont (c : Char) : Bool := c.isAlphanum || c == '_'

/-- str.isidentifier restricted to ASCII strings (the only strings this
repository's metadata uses). -/
def strIsIdentifier (s : String) : Bool :=
  match s.toList with
  | [] => false
  | c :: cs => isIdentStart c && cs.all isIdentCont

/-- is_valid_identifier (utils.py lines 32-55) on a string argument.
Return codes: 0 valid, 2 empty, 3 not an identifier, 4 Python keyword.
Code 1 (non-string argument) arises only at call sites where the
argument is a dynamically typed object; see isValidIdentifierObj. -/
def is_valid_identifier (s : String) : Nat :=
  if s = "" then 2
  else if !strIsIdentifier s then 3
  else if pyKeywords.contains s then 4
  else 0

/-!
Model of Python object trees for the metaclass freezing machinery
(EntityMeta in base.py).  Containers mirror exactly the cases that
EntityMeta._freeze (base.py lines 93-113) dispatches on: dict,
KeysView, ItemsView, list, tuple, ValuesView, set, frozenset,
bytearray, with scalars and bytes passing through unchanged.
A MappingProxyType node created by _freeze holds its fresh backing
dict's entries directly; range is omitted (the metadata declarations
never contain ranges, and it carries no nested objects).
Dict keys are modelled as strings, which is what every declaration in
this repository uses (Python additionally allows any hashable key).
-/

mutual
/-- A Python object reachable from an entity class attribute. -/
inductive PyObj where
  | vInt (n : Int)
  | vStr (s : String)
  | vBool (b : Bool)
  | vNone
  | vFieldMeta (fm : FieldMeta)
  | pyDict (entries : EntryList)
  | mpProxy (entries : EntryList)
  | pyList (elems : ObjList)
  | pyTuple (elems : ObjList)
  | pySet (elems : ObjList)
  | pyFrozenset (elems : ObjList)
  | pyBytearray (bs : List Nat)
  | pyBytes (bs : List Nat)
  | keysView (elems : ObjList)
  | valuesView (elems : ObjList)
  | itemsView (entries : EntryList)
deriving DecidableEq, Repr

/-- A sequence of Python objects (list/tuple/set contents). -/
inductive ObjList where
  | nil
  | cons (hd : PyObj) (tl : ObjList)
deriving DecidableEq, Repr

/-- A sequence of string-keyed dict entries. -/
inductive EntryList where
  | nil
  | cons (key : String) (val : PyObj) (tl : EntryList)
deriving DecidableEq, Repr
end

mutual
/-- EntityMeta._freeze (base.py lines 93-113): dict becomes a mapping
proxy over a fresh dict with recursively frozen values; KeysView becomes
a tuple of the keys (not recursively frozen); ItemsView becomes a tuple
of (key, frozen value) pairs; list, tuple and ValuesView become tuples of
recursively frozen elements; set and frozenset become frozensets of the
same elements (not recursively frozen); bytearray becomes bytes; every
other object, including an already existing MappingProxyType, is
returned unchanged. -/
def freeze : PyObj → PyObj
  | .pyDict l => .mpProxy (freezeEntries l)
  | .keysView l => .pyTuple l
  | .itemsView l => .pyTuple (itemPairs l)
  | .pyList l => .pyTuple (freezeElems l)
  | .pyTuple l => .pyTuple (freezeElems l)
  | .valuesView l => .pyTuple (freezeElems l)
  | .pySet l => .pyFrozenset l
  | .pyFrozenset l => .pyFrozenset l
  | .pyBytearray b => .pyBytes b
  | o => o

/-- Elementwise freeze of a sequence. -/
def freezeElems : ObjList → ObjList
  | .nil => .nil
  | .cons h t => .cons (freeze h) (freezeElems t)

/-- Valuewise freeze of dict entries. -/
def freezeEntries : EntryList → EntryList
  | .nil => .nil
  | .cons k v t => .cons k (freeze v) (freezeEntries t)

/-- ItemsView freeze: each item becomes the pair tuple (key, frozen value). -/
def itemPairs : EntryList → ObjList
  | .nil => .nil
  | .cons k v t =>
      .cons (.pyTuple (.cons (.vStr k) (.cons (freeze v) .nil))) (itemPairs t)
end

mutual
/-- Whether a mutable container (dict, list, set, bytearray) or a live
dict view is reachable in the object tree.  Entries sitting directly
under an mpProxy node are the proxy's backing dict, which for a proxy
built by freeze is fresh and unaliased, so the proxy node itself does
not count as mutable; its entry values are still traversed. -/
def hasMutable : PyObj → Bool
  | .pyDict _ => true
  | .pyList _ => true
  | .pySet _ => true
  | .pyBytearray _ => true
  | .keysView _ => true
  | .valuesView _ => true
  | .itemsView _ => true
  | .mpProxy l => hasMutableEntries l
  | .pyTuple l => hasMutableElems l
  | .pyFrozenset l => hasMutableElems l
  | _ => false

/-- Sequence version of hasMutable. -/
def hasMutableElems : ObjList → Bool
  | .nil => false
  | .cons h t => hasMutable h || hasMutableElems t

/-- Entry version of hasMutable. -/
def hasMutableEntries : EntryList → Bool
  | .nil => false
  | .cons _ v t => hasMutable v || hasMutableEntries t
end

mutual
/-- Whether the object tree is free of pre-existing MappingProxyType
nodes (every proxy in a declaration namespace would have been supplied
by the declaring class body; freeze never recurses into them). -/
def proxyFree : PyObj → Bool
  | .mpProxy _ => false
  | .pyDict l => proxyFreeEntries l
  | .itemsView l => proxyFreeEntries l
  | .pyList l => proxyFreeElems l
  | .pyTuple l => proxyFreeElems l
  | .pySet l => proxyFreeElems l
  | .pyFrozenset l => proxyFreeElems l
  | .keysView l => proxyFreeElems l
  | .valuesView l => proxyFreeElems l
  | _ => true

/-- Sequence version of proxyFree. -/
def proxyFreeElems : ObjList → Bool
  | .nil => true
  | .cons h t => proxyFree h && proxyFreeElems t

/-- Entry version of proxyFree. -/
def proxyFreeEntries : EntryList → Bool
  | .nil => true
  | .cons _ v t => proxyFree v && proxyFreeEntries t
end

mutual
/-- Python hashability of an object: scalars, bytes, tuples of hashables
and frozensets of hashables.  Mutable containers and views are
unhashable. -/
def hashable : PyObj → Bool
  | .vInt _ => true
  | .vStr _ => true
  | .vBool _ => true
  | .vNone => true
  | .vFieldMeta _ => true
  | .pyBytes _ => true
  | .pyTuple l => hashableElems l
  | .pyFrozenset l => hashableElems l
  | _ => false

/-- Sequence version of hashable. -/
def hashableElems : ObjList → Bool
  | .nil => true
  | .cons h t => hashable h && hashableElems t
end

mutual
/-- Whether the object tree satisfies Python's own container contracts:
every element of a set, frozenset or keys view is hashable (a Python
set cannot hold an unhashable element, and dict keys - which KeysView
iterates - are likewise hashable).  This rules out trees that no Python
program can build. -/
def pyHashWF : PyObj → Bool
  | .pySet l => hashableElems l && pyHashWFElems l
  | .pyFrozenset l => hashableElems l && pyHashWFElems l
  | .keysView l => hashableElems l && pyHashWFElems l
  | .pyDict l => pyHashWFEntries l
  | .mpProxy l => pyHashWFEntries l
  | .itemsView l => pyHashWFEntries l
  | .pyList l => pyHashWFElems l
  | .pyTuple l => pyHashWFElems l
  | .valuesView l => pyHashWFElems l
  | _ => true

/-- Sequence version of pyHashWF. -/
def pyHashWFElems : ObjList → Bool
  | .nil => true
  | .cons h t => pyHashWF h && pyHashWFElems t

/-- Entry version of pyHashWF. -/
def pyHashWFEntries : EntryList → Bool
  | .nil => true
  | .cons _ v t => pyHashWF v && pyHashWFEntries t
end

/-!
Errors.  Python exceptions are modelled by one constructor per distinct
raise reason in the embedded code; the doc comments record the Python
exception class.
-/

/-- Exceptions raised by the embedded code paths of base.py.  Each
constructor corresponds to one raise reason; declaration-time errors
first, then call-time errors. -/
inductive PyErr where
  /-- AttributeError from looking up a name the metaclass does not define
  (base.py lines 703 and 917 read mcls.CONCRETE_ENTITY_ATTR). -/
  | attributeErrorNoAttr
  /-- TypeError, base.py lines 718-724: some but not all of the four
  required configs were overridden. -/
  | partialOverride
  /-- TypeError, line 691: TABLE_NAME must be a string. -/
  | tableNameNotStr
  /-- TypeError, line 561: TABLE_META must be a dict (a mapping proxy
  after freezing). -/
  | tableMetaNotDict
  /-- TypeError, line 563: TABLE_META must be non-empty. -/
  | tableMetaEmpty
  /-- ValueError, line 570: empty field name in TABLE_META. -/
  | tmFieldNameEmpty
  /-- ValueError, line 572: TABLE_META field name is not an identifier. -/
  | tmFieldNameNotIdent
  /-- ValueError, line 574: TABLE_META field name is a Python keyword. -/
  | tmFieldNameKeyword
  /-- TypeError, line 577: TABLE_META value is not a FieldMeta. -/
  | tmValueNotFieldMeta
  /-- TypeError, line 581: FieldMeta.py_type is NoneType. -/
  | tmPyTypeIsNoneType
  /-- TypeError, line 589: PRIMARY_KEYS must be a tuple. -/
  | pkNotTuple
  /-- TypeError, line 591: PRIMARY_KEYS must be non-empty. -/
  | pkEmpty
  /-- TypeError, line 595: PRIMARY_KEYS element is not a string. -/
  | pkElemNotStr
  /-- ValueError, line 598: primary key name absent from TABLE_META. -/
  | pkNotInTableMeta
  /-- ValueError, line 602: primary key field is nullable. -/
  | pkNullable
  /-- TypeError, line 612: FOREIGN_KEYS must be a dict (mapping proxy). -/
  | fkNotDict
  /-- ValueError, line 618: empty referenced table name. -/
  | fkTableNameEmpty
  /-- TypeError, line 621: ref mapping is not a dict (mapping proxy). -/
  | fkRefMapNotDict
  /-- ValueError, line 625: ref mapping is empty. -/
  | fkRefMapEmpty
  /-- ValueError, line 640: empty referenced column name. -/
  | fkRefColEmpty
  /-- ValueError, line 646: referenced column is not an identifier. -/
  | fkRefColNotIdent
  /-- ValueError, line 652: referenced column is a Python keyword. -/
  | fkRefColKeyword
  /-- TypeError, line 658: foreign key column is not a string. -/
  | fkColNotStr
  /-- ValueError, line 665: empty foreign key column name. -/
  | fkColEmpty
  /-- ValueError, line 671: foreign key column is not an identifier. -/
  | fkColNotIdent
  /-- ValueError, line 677: foreign key column is a Python keyword. -/
  | fkColKeyword
  /-- ValueError, line 684: foreign key column absent from TABLE_META. -/
  | fkColNotInTableMeta
  /-- AttributeError, lines 509-511: concrete flag is write-once. -/
  | flagReassign
  /-- AttributeError, line 513: concrete flag must be set to None. -/
  | flagNotNone
  /-- AttributeError, line 531: concrete flag cannot be deleted. -/
  | flagDelete
  /-- RuntimeError, lines 517 and 535: derived freeze keys missing. -/
  | missingFrozenKeysSet
  /-- AttributeError, lines 521-523: frozen attribute reassigned. -/
  | frozenAttrReassign
  /-- AttributeError, line 539: frozen attribute deleted. -/
  | frozenAttrDelete
  /-- TypeError, line 1113: DependentEntity needs exactly one foreign
  key relationship. -/
  | depFkCount
  /-- TypeError, line 1124: dependent foreign key columns must be a
  subset of the primary keys. -/
  | depFkNotSubset
  /-- TypeError, line 1210: extension foreign key columns must equal the
  primary keys. -/
  | extFkNeqPk
  /-- ValueError, lines 817 and 847: unknown field name. -/
  | unknownField
  /-- ValueError, line 823: primary key field is not set. -/
  | pkNotSet
  /-- TypeError, lines 829-839, 863-873 and 961-965: value fails the
  declared type and nullability contract. -/
  | typeMismatch
  /-- ValueError, line 852: primary key field set to the UNSET sentinel. -/
  | pkCannotBeUnset
  /-- ValueError, line 967: required primary key field missing. -/
  | missingPkField
  /-- ValueError, line 883: missing required fields for INSERT. -/
  | missingRequiredFields
  /-- sqlite3.IntegrityError: INSERT without a conflict clause hit an
  existing row with the same primary key. -/
  | integrityError
  /-- NotImplementedError, lines 1262 and 1270: patch and upsert of a
  binary association entity. -/
  | notImplementedBinary
deriving DecidableEq, Repr

/-- Association list lookup, used for Python string-keyed dicts. -/
def alookup {α : Type} : List (String × α) → String → Option α
  | [], _ => Option.none
  | (k, v) :: t, n => if k = n then some v else alookup t n

/-!
Registration pipeline.  A new entity subclass supplies a class-body
namespace; EntityMeta.__new__ (stage 5, base.py lines 497-500) freezes
the values of the freeze-key attributes that appear in the namespace,
and BaseEntity.__init_subclass__ (lines 700-728) then enforces the
all-or-nothing contract and validates the four configs.  The namespace
is restricted to the four config attributes; the metaclass forbids the
concrete flag and the injected internals in a class body (lines
440-453), and the inherit-mode bookkeeping (lines 319-437) resolves to
BaseEntity's baseline for every entity subclass in this repository.
-/

/-- Class-body namespace of an entity subclass: which of the four
required config attributes are present, and their raw values. -/
structure ClassNamespace where
  tableMetaAttr : Option PyObj
  primaryKeysAttr : Option PyObj
  foreignKeysAttr : Option PyObj
  tableNameAttr : Option PyObj
deriving DecidableEq, Repr

/-- EntityMeta.__new__ stage 5 (lines 497-500): freeze every
freeze-key attribute present in the namespace.  All four config
attributes are freeze keys (_BASE_FREEZE_KEYS, lines 549-554). -/
def freezeNamespace (ns : ClassNamespace) : ClassNamespace where
  tableMetaAttr := ns.tableMetaAttr.map freeze
  primaryKeysAttr := ns.primaryKeysAttr.map freeze
  foreignKeysAttr := ns.foreignKeysAttr.map freeze
  tableNameAttr := ns.tableNameAttr.map freeze

/-- BaseEntity._validate_table_name (lines 688-691): TABLE_NAME must be
an instance of str (frozen_type(str) is str); nothing else is checked. -/
def validateTableName : PyObj → Except PyErr String
  | .vStr s => .ok s
  | _ => .error .tableNameNotStr

/-- Per-entry loop of BaseEntity._validate_table_meta (lines 565-583):
field names must be valid non-keyword identifiers, values must be
FieldMeta whose py_type is not NoneType.  Dict keys are strings by
representation, so return code 1 of is_valid_identifier cannot arise
here; py_type is a type and nullable is a Bool by representation, so
the isinstance checks on them (lines 578, 582) always pass. -/
def validateTMEntries : EntryList → Except PyErr (List (String × FieldMeta))
  | .nil => .ok []
  | .cons k v t =>
      match is_valid_identifier k with
      | 2 => .error .tmFieldNameEmpty
      | 3 => .error .tmFieldNameNotIdent
      | 4 => .error .tmFieldNameKeyword
      | _ =>
        match v with
        | .vFieldMeta fm =>
            if fm.py_type = .pyNoneType then .error .tmPyTypeIsNoneType
            else do
              let rest ← validateTMEntries t
              .ok ((k, fm) :: rest)
        | _ => .error .tmValueNotFieldMeta

/-- BaseEntity._validate_table_meta (lines 559-583): TABLE_META must be
a mapping proxy (the frozen counterpart of dict), non-empty, with valid
entries. -/
def validateTableMeta : PyObj → Except PyErr (List (String × FieldMeta))
  | .mpProxy l =>
      if l = .nil then .error .tableMetaEmpty else validateTMEntries l
  | _ => .error .tableMetaNotDict

/-- Per-element loop of BaseEntity._validate_primary_keys (lines
593-606): each primary key is a string naming a non-nullable
TABLE_META field. -/
def validatePkElems (tm : List (String × FieldMeta)) :
    ObjList → Except PyErr (List String)
  | .nil => .ok []
  | .cons h t =>
      match h with
      | .vStr s =>
          match alookup tm s with
          | Option.none => .error .pkNotInTableMeta
          | some fm =>
              if fm.nullable then .error .pkNullable
              else do
                let rest ← validatePkElems tm t
                .ok (s :: rest)
      | _ => .error .pkElemNotStr

/-- BaseEntity._validate_primary_keys (lines 586-606): PRIMARY_KEYS must
be a non-empty tuple of strings naming non-nullable fields. -/
def validatePrimaryKeys (tm : List (String × FieldMeta)) :
    PyObj → Except PyErr (List String)
  | .pyTuple l => if l = .nil then .error .pkEmpty else validatePkElems tm l
  | _ => .error .pkNotTuple

/-- Inner loop of BaseEntity._validate_foreign_keys (lines 628-686) over
one ref mapping: the referenced column name is checked first, then the
foreign key column (which must be a string), then its membership in
TABLE_META.  Ref mapping keys are strings by representation, so return
code 1 cannot arise for them. -/
def validateRefMapEntries (tm : List (String × FieldMeta)) :
    EntryList → Except PyErr (List (String × String))
  | .nil => .ok []
  | .cons refCol v t =>
      match is_valid_identifier refCol with
      | 2 => .error .fkRefColEmpty
      | 3 => .error .fkRefColNotIdent
      | 4 => .error .fkRefColKeyword
      | _ =>
        match v with
        | .vStr fkCol =>
            match is_valid_identifier fkCol with
            | 2 => .error .fkColEmpty
            | 3 => .error .fkColNotIdent
            | 4 => .error .fkColKeyword
            | _ =>
              if (alookup tm fkCol).isNone then .error .fkColNotInTableMeta
              else do
                let rest ← validateRefMapEntries tm t
                .ok ((refCol, fkCol) :: rest)
        | _ => .error .fkColNotStr

/-- Outer loop of BaseEntity._validate_foreign_keys (lines 614-686):
referenced table names must be non-empty strings, ref mappings must be
non-empty mapping proxies. -/
def validateFkTables (tm : List (String × FieldMeta)) :
    EntryList → Except PyErr (List (String × List (String × String)))
  | .nil => .ok []
  | .cons tname v t =>
      if tname = "" then .error .fkTableNameEmpty
      else
        match v with
        | .mpProxy rm =>
            if rm = .nil then .error .fkRefMapEmpty
            else do
              let m ← validateRefMapEntries tm rm
              let rest ← validateFkTables tm t
              .ok ((tname, m) :: rest)
        | _ => .error .fkRefMapNotDict

/-- BaseEntity._validate_foreign_keys (lines 609-686): FOREIGN_KEYS must
be a mapping proxy (possibly empty) with valid entries. -/
def validateForeignKeys (tm : List (String × FieldMeta)) :
    PyObj → Except PyErr (List (String × List (String × String)))
  | .mpProxy l => validateFkTables tm l
  | _ => .error .fkNotDict

/-- A fully registered, concrete entity type: its four frozen metadata
pieces in structured form. -/
structure EntityClass where
  tableMeta : List (String × FieldMeta)
  primaryKeys : List String
  foreignKeys : List (String × List (String × String))
  tableName : String
deriving DecidableEq, Repr

/-- Outcome of a successful subclass declaration: an abstract
intermediate type, or a concrete registered entity type. -/
inductive RegOutcome where
  | abstractType
  | concreteType (c : EntityClass)
deriving DecidableEq, Repr

/-- The logic of BaseEntity.__init_subclass__ after its prologue (lines
713-728): no config present means an abstract intermediate subclass; a
proper subset is a TypeError; all four are validated in the order of
_validate_entity_configs (lines 694-698: table name, table meta,
primary keys, foreign keys) and the type becomes concrete. -/
def initSubclassChecked (ns : ClassNamespace) : Except PyErr RegOutcome :=
  match ns.tableMetaAttr, ns.primaryKeysAttr, ns.foreignKeysAttr,
        ns.tableNameAttr with
  | Option.none, Option.none, Option.none, Option.none => .ok .abstractType
  | some tm, some pk, some fk, some tn => do
      let name ← validateTableName tn
      let meta ← validateTableMeta tm
      let pks ← validatePrimaryKeys meta pk
      let fks ← validateForeignKeys meta fk
      .ok (.concreteType ⟨meta, pks, fks, name⟩)
  | _, _, _, _ => .error .partialOverride

/-- Attribute table of the metaclass EntityMeta itself (base.py lines
22-35): the class-level string constants it defines.  The name
CONCRETE_ENTITY_ATTR is not among them. -/
def entityMetaClassAttrs : List (String × String) :=
  [("CONCRETE_ENTITY_FLAG_ATTR", "_CONCRETE_ENTITY"),
   ("BASE_FREEZE_KEYS_ATTR", "_BASE_FREEZE_KEYS"),
   ("BASE_SLOTS_SOURCE_NAME_ATTR", "_BASE_SLOTS_SOURCE_NAME"),
   ("EXTRA_FREEZE_KEYS_ATTR", "_EXTRA_FREEZE_KEYS"),
   ("_DERIVED_FREEZE_KEYS_ATTR", "_DERIVED_FREEZE_KEYS"),
   ("_DERIVED_SLOTS_SOURCE_NAME_ATTR", "_DERIVED_SLOTS_SOURCE_NAME")]

/-- Python attribute lookup on the EntityMeta class object: succeeds on
the attributes of entityMetaClassAttrs, AttributeError otherwise. -/
def entityMetaGetattr (name : String) : Except PyErr String :=
  match alookup entityMetaClassAttrs name with
  | some v => .ok v
  | Option.none => .error .attributeErrorNoAttr

/-- BaseEntity.__init_subclass__ exactly as written (lines 700-728): its
first statement after super() reads mcls.CONCRETE_ENTITY_ATTR (line
703), an attribute the metaclass does not define, before any of the
all-or-nothing logic runs. -/
def initSubclassFaithful (ns : ClassNamespace) : Except PyErr RegOutcome := do
  let _flag ← entityMetaGetattr "CONCRETE_ENTITY_ATTR"
  initSubclassChecked ns

/-- Full registration of a direct BaseEntity subclass, with the
metaclass attribute-name slip of line 703 repaired to the evidently
intended CONCRETE_ENTITY_FLAG_ATTR (the constant the same file uses at
lines 441, 487, 507 and 530): metaclass freezing followed by the
checked __init_subclass__ logic. -/
def registerBase (ns : ClassNamespace) : Except PyErr RegOutcome :=
  initSubclassChecked (freezeNamespace ns)

/-- DependentEntity.__init_subclass__ shape check (lines 1111-1128):
exactly one foreign key relationship whose local columns form a subset
of the primary keys.  Python's set(...) on both sides is modelled by
dedup; only membership and cardinality of the results are ever used. -/
def dependentCheck (c : EntityClass) : Except PyErr Unit :=
  match c.foreignKeys with
  | [(_, refMap)] =>
      let fkSet := (refMap.map Prod.snd).dedup
      let pkSet := c.primaryKeys.dedup
      if !fkSet.all (fun x => pkSet.contains x) then .error .depFkNotSubset
      else .ok ()
  | _ => .error .depFkCount

/-- ExtensionEntity.__init_subclass__ shape check (lines 1199-1214):
given the dependent subset guarantee, the foreign key column set must
have the same cardinality as the primary key set (the code compares
len(fk_set) < len(pk_set) on the two Python sets). -/
def extensionCheck (c : EntityClass) : Except PyErr Unit :=
  match c.foreignKeys with
  | [(_, refMap)] =>
      let fkSet := (refMap.map Prod.snd).dedup
      let pkSet := c.primaryKeys.dedup
      if fkSet.length < pkSet.length then .error .extFkNeqPk else .ok ()
  | _ => .error .depFkCount

/-- Registration of a DependentEntity subclass: base registration, then
the dependent shape check when the type came out concrete (lines
1106-1110 return early for abstract intermediates). -/
def registerDependent (ns : ClassNamespace) : Except PyErr RegOutcome := do
  let out ← registerBase ns
  match out with
  | .abstractType => .ok .abstractType
  | .concreteType c => do
      dependentCheck c
      .ok (.concreteType c)

/-- Registration of an ExtensionEntity subclass: dependent registration
(its super().__init_subclass__ chain), then the extension shape check
when concrete. -/
def registerExtension (ns : ClassNamespace) : Except PyErr RegOutcome := do
  let out ← registerDependent ns
  match out with
  | .abstractType => .ok .abstractType
  | .concreteType c => do
      extensionCheck c
      .ok (.concreteType c)

/-!
Structural immutability at the class surface: EntityMeta.__setattr__ and
EntityMeta.__delattr__ (base.py lines 504-541).
-/

/-- The concrete entity flag attribute name (base.py line 24). -/
def concreteEntityFlag : String := "_CONCRETE_ENTITY"

/-- The four required config attribute names, _BASE_FREEZE_KEYS of
BaseEntity (lines 549-554). -/
def baseFreezeKeys : List String :=
  ["TABLE_META", "PRIMARY_KEYS", "FOREIGN_KEYS", "TABLE_NAME"]

/-- The internal bookkeeping names every derived freeze-key set
contains (lines 302-306). -/
def internalFreezeKeys : List String :=
  ["_DERIVED_FREEZE_KEYS", "_DERIVED_SLOTS_SOURCE_NAME", "__slots__"]

/-- The derived freeze-key set a concrete entity subclass inherits from
BaseEntity's baseline (lines 307-309 and 409-411), absent extra freeze
keys. -/
def derivedFreezeKeys : List String := baseFreezeKeys ++ internalFreezeKeys

/-- EntityMeta.__setattr__ (lines 504-525): the write-once, None-only
discipline for the concrete flag, then a RuntimeError if the class
lacks its injected freeze-key set, then an AttributeError for any
frozen name; otherwise the write proceeds. -/
def entityMetaSetattr (clsDictKeys : List String)
    (frozenKeys : Option (List String)) (name : String) (value : PyObj) :
    Except PyErr Unit := do
  if name = concreteEntityFlag then
    if clsDictKeys.contains name then throw .flagReassign
    else if value ≠ .vNone then throw .flagNotNone
  match frozenKeys with
  | Option.none => throw .missingFrozenKeysSet
  | some ks =>
      if ks.contains name then throw .frozenAttrReassign else pure ()

/-- EntityMeta.__delattr__ (lines 527-541): the concrete flag and every
frozen name cannot be deleted. -/
def entityMetaDelattr (frozenKeys : Option (List String)) (name : String) :
    Except PyErr Unit := do
  if name = concreteEntityFlag then throw .flagDelete
  match frozenKeys with
  | Option.none => throw .missingFrozenKeysSet
  | some ks =>
      if ks.contains name then throw .frozenAttrDelete else pure ()

/-!
Entity instances and field access (base.py lines 812-983).  An instance
stores its per-field attribute slots; getattr(self, name, UNSET) is a
lookup defaulting to the UNSET sentinel.  The __slots__ of a concrete
entity are its TABLE_META keys, so only declared columns are ever
stored.  Field values are the scalar values of the Value type; cursor
and simulate parameters of the persistence operations are modelled in
their operative configuration (an open cursor, simulate off).
-/

/-- Update or append one binding of an attribute store. -/
def astore : List (String × Value) → String → Value → List (String × Value)
  | [], n, v => [(n, v)]
  | (k, w) :: t, n, v =>
      if k = n then (n, v) :: t else (k, w) :: astore t n v

/-- An entity instance: its concrete class and its attribute slots. -/
structure EntityInstance where
  cls : EntityClass
  attrs : List (String × Value)
deriving DecidableEq, Repr

/-- getattr(self, field_name, UNSET): read a slot, defaulting to the
UNSET sentinel when the attribute has never been set. -/
def getattrD (i : EntityInstance) (name : String) : Value :=
  match alookup i.attrs name with
  | some v => v
  | Option.none => .unsetV

/-- BaseEntity.get_field_value (lines 812-840): unknown field names are
rejected; an unset primary key is an error while an unset non-key field
is returned as the sentinel; a set value must satisfy the field's type
contract.  The two TypeError messages (primary key or not) share one
error constructor. -/
def get_field_value (i : EntityInstance) (field_name : String) :
    Except PyErr Value :=
  match alookup i.cls.tableMeta field_name with
  | Option.none => .error .unknownField
  | some field_meta =>
      let field_value := getattrD i field_name
      if field_value = .unsetV then
        if i.cls.primaryKeys.contains field_name then .error .pkNotSet
        else .ok field_value
      else if !field_meta.is_valid_value field_value then .error .typeMismatch
      else .ok field_value

/-- BaseEntity.set_field_value (lines 842-874): unknown field names are
rejected; the UNSET sentinel may not be assigned to a primary key but is
stored on any other field; any other value must satisfy the field's
type contract before being stored. -/
def set_field_value (i : EntityInstance) (field_name : String)
    (new_value : Value) : Except PyErr EntityInstance :=
  match alookup i.cls.tableMeta field_name with
  | Option.none => .error .unknownField
  | some field_meta =>
      if new_value = .unsetV then
        if i.cls.primaryKeys.contains field_name then .error .pkCannotBeUnset
        else .ok ⟨i.cls, astore i.attrs field_name new_value⟩
      else if !field_meta.is_valid_value new_value then .error .typeMismatch
      else .ok ⟨i.cls, astore i.attrs field_name new_value⟩

/-- BaseEntity._filter_data (lines 886-893): keep only entries whose key
is a TABLE_META column and whose value is not the UNSET sentinel. -/
def filter_data (c : EntityClass) (data : List (String × Value)) :
    List (String × Value) :=
  data.filter (fun kv => (alookup c.tableMeta kv.1).isSome && kv.2 ≠ .unsetV)

/-- BaseEntity.validate_data (lines 950-967): walk TABLE_META in
declaration order; a present entry must satisfy its field's type
contract; an absent primary key is an error. -/
def validate_data_fields (pks : List String) (data : List (String × Value)) :
    List (String × FieldMeta) → Except PyErr Unit
  | [] => .ok ()
  | (field_name, field_meta) :: rest =>
      match alookup data field_name with
      | some field_value =>
          if !field_meta.is_valid_value field_value then .error .typeMismatch
          else validate_data_fields pks data rest
      | Option.none =>
          if pks.contains field_name then .error .missingPkField
          else validate_data_fields pks data rest

/-- BaseEntity.validate_data entry point. -/
def validate_data (c : EntityClass) (data : List (String × Value)) :
    Except PyErr Unit :=
  validate_data_fields c.primaryKeys data c.tableMeta

/-- BaseEntity.__init__ (lines 969-973): filter the supplied map, then
validate it, then store each remaining entry in the instance's slots. -/
def entityInit (c : EntityClass) (data : List (String × Value)) :
    Except PyErr EntityInstance :=
  let d := filter_data c data
  match validate_data c d with
  | .error e => .error e
  | .ok _ => .ok ⟨c, d⟩

/-- BaseEntity.validate_fields (lines 975-983): read every TABLE_META
column from the slots (defaulting to UNSET), filter out the unset ones,
validate and return the populated field map. -/
def validate_fields (i : EntityInstance) :
    Except PyErr (List (String × Value)) :=
  let data := i.cls.tableMeta.map (fun kv => (kv.1, getattrD i kv.1))
  let filtered := filter_data i.cls data
  match validate_data i.cls filtered with
  | .error e => .error e
  | .ok _ => .ok filtered

/-- BaseEntity._validate_insert_data (lines 877-883): every non-nullable
column must be present in the data map. -/
def validate_insert_data (c : EntityClass) (data : List (String × Value)) :
    Except PyErr Unit :=
  let required := (c.tableMeta.filter (fun kv => !kv.2.nullable)).map Prod.fst
  let missing := required.filter (fun f => (alookup data f).isNone)
  if !missing.isEmpty then .error .missingRequiredFields else .ok ()

/-!
Store model.  The SQLite table behind one entity type is a list of
rows; the primary-key columns carry the table's uniqueness constraint.
Each operation returns the statements it executed, so the claims about
which statements are issued are expressible.
-/

/-- One stored row: a column-to-value map. -/
abbrev Row : Type := List (String × Value)

/-- Statements the persistence operations can execute. -/
inductive Stmt where
  | insertStmt (table : String) (cols : List String) (onConflictIgnore : Bool)
  | updateStmt (table : String) (setCols : List String) (whereCols : List String)
deriving DecidableEq, Repr

/-- Whether a stored row agrees with the data map on every primary-key
column (the WHERE clause keyed by the primary keys). -/
def pkMatches (pks : List String) (r d : Row) : Bool :=
  pks.all (fun p => decide (alookup r p = alookup d p))

/-- Effect of the INSERT statement built by insert_to_db (lines
997-1010): a row whose primary key collides with an existing row is an
integrity error, or a no-op under ON CONFLICT DO NOTHING; otherwise the
row is appended. -/
def execInsert (pks : List String) (store : List Row) (data : Row)
    (onConflictIgnore : Bool) : Except PyErr (List Row) :=
  if store.any (fun r => pkMatches pks r data) then
    if onConflictIgnore then .ok store else .error .integrityError
  else .ok (store ++ [data])

/-- Apply the SET clause of an UPDATE to one row. -/
def applySet (r : Row) (setCols : List String) (data : Row) : Row :=
  setCols.foldl
    (fun acc c =>
      match alookup data c with
      | some v => astore acc c v
      | Option.none => acc)
    r

/-- Effect of the UPDATE statement built by update_fields_db (lines
1027-1035), together with cur.rowcount: every row matching the
primary-key values receives the SET columns, and the rowcount is the
number of matched rows. -/
def execUpdate (pks : List String) (store : List Row)
    (setCols : List String) (data : Row) : List Row × Nat :=
  ((store.map fun r => if pkMatches pks r data then applySet r setCols data
                       else r),
   (store.filter fun r => pkMatches pks r data).length)

/-- BaseEntity.insert_to_db (lines 985-1012), simulate off and cursor
supplied: validate the populated fields, require every non-nullable
column, then execute one INSERT listing exactly the populated columns,
with ON CONFLICT DO NOTHING exactly when on_conflict is set. -/
def insert_to_db (i : EntityInstance) (store : List Row)
    (on_conflict : Bool) : Except PyErr (List Row × List Stmt) := do
  let data ← validate_fields i
  validate_insert_data i.cls data
  let st ← execInsert i.cls.primaryKeys store data on_conflict
  .ok (st, [.insertStmt i.cls.tableName (data.map Prod.fst) on_conflict])

/-- BaseEntity.update_fields_db (lines 1014-1042), simulate off and
cursor supplied: validate the populated fields; with no non-key column
populated, return False having executed nothing; otherwise execute one
UPDATE of the populated non-key columns keyed by the primary keys, and
report whether any row was changed. -/
def update_fields_db (i : EntityInstance) (store : List Row) :
    Except PyErr (Bool × List Row × List Stmt) := do
  let data ← validate_fields i
  let updateCols :=
    (data.map Prod.fst).filter (fun k => !i.cls.primaryKeys.contains k)
  if updateCols.isEmpty then .ok (false, store, [])
  else
    let res := execUpdate i.cls.primaryKeys store updateCols data
    .ok (decide (0 < res.2), res.1,
         [.updateStmt i.cls.tableName updateCols i.cls.primaryKeys])

/-- BaseEntity.upsert_to_db (lines 1044-1054): try the patch first;
when it reports that no row was updated, fall through to insert with
on_conflict disabled. -/
def upsert_to_db (i : EntityInstance) (store : List Row) :
    Except PyErr (List Row × List Stmt) := do
  let res ← update_fields_db i store
  if res.1 then .ok (res.2.1, res.2.2)
  else do
    let ins ← insert_to_db i res.2.1 false
    .ok (ins.1, res.2.2 ++ ins.2)

/-!
BinaryAssociationEntity overrides (base.py lines 1217-1275).
-/

/-- BinaryAssociationEntity.insert_to_db (lines 1218-1224): delegates to
the base insert with on_conflict forced to True, whatever the caller
passed. -/
def binaryInsertToDb (i : EntityInstance) (store : List Row)
    (_on_conflict : Bool) : Except PyErr (List Row × List Stmt) :=
  insert_to_db i store true

/-- BinaryAssociationEntity.update_fields_db (lines 1261-1267): always a
NotImplementedError. -/
def binaryUpdateFieldsDb (_i : EntityInstance) (_store : List Row) :
    Except PyErr (Bool × List Row × List Stmt) :=
  .error .notImplementedBinary

/-- BinaryAssociationEntity.upsert_to_db (lines 1269-1275): always a
NotImplementedError. -/
def binaryUpsertToDb (_i : EntityInstance) (_store : List Row) :
    Except PyErr (List Row × List Stmt) :=
  .error .notImplementedBinary

/-!
Helper lemmas about association lists.
-/

theorem alookup_eq_some_mem {α : Type} {l : List (String × α)} {k : String}
    {v : α} (h : alookup l k = some v) : (k, v) ∈ l := by
  induction l with
  | nil => simp [alookup] at h
  | cons hd t ih =>
      obtain ⟨k', v'⟩ := hd
      by_cases hk : k' = k
      · subst hk
        simp [alookup] at h
        subst h
        exact List.mem_cons_self _ _
      · simp [alookup, hk] at h
        exact List.mem_cons_of_mem _ (ih h)

theorem alookup_isSome_iff_mem_keys {α : Type} {l : List (String × α)}
    {k : String} : (alookup l k).isSome = true ↔ k ∈ l.map Prod.fst := by
  induction l with
  | nil => simp [alookup]
  | cons hd t ih =>
      obtain ⟨k', v'⟩ := hd
      by_cases hk : k' = k
      · subst hk; simp [alookup]
      · simp [alookup, hk, ih, Ne.symm hk]

theorem mem_alookup_of_nodup {α : Type} {l : List (String × α)} {k : String}
    {v : α} (hnd : (l.map Prod.fst).Nodup) (hm : (k, v) ∈ l) :
    alookup l k = some v := by
  induction l with
  | nil => simp at hm
  | cons hd t ih =>
      obtain ⟨k', v'⟩ := hd
      simp only [List.map_cons, List.nodup_cons] at hnd
      rcases List.mem_cons.mp hm with heq | hmt
      · obtain ⟨h1, h2⟩ := Prod.mk.injEq .. ▸ heq
        subst h1; subst h2
        simp [alookup]
      · have hne : k' ≠ k := by
          intro hkk
          subst hkk
          exact hnd.1 (List.mem_map.mpr ⟨(k', v), hmt, rfl⟩)
        simp [alookup, hne]
        exact ih hnd.2 hmt

/-!
Concrete declarations used as test vectors and witnesses.
-/

/-- Field metadata: a non-nullable integer column. -/
def fmInt : FieldMeta := ⟨.pyInt, false⟩

/-- Field metadata: a non-nullable string column. -/
def fmStr : FieldMeta := ⟨.pyStr, false⟩

/-- Field metadata: a nullable string column. -/
def fmStrN : FieldMeta := ⟨.pyStr, true⟩

/-- Extension scenario, failing side: primary key (id), one foreign key
relationship whose local column is other_col, a declared column that is
not the primary key. -/
def extBadNs : ClassNamespace where
  tableMetaAttr := some (.pyDict
    (.cons "id" (.vFieldMeta fmInt) (.cons "other_col" (.vFieldMeta fmInt) .nil)))
  primaryKeysAttr := some (.pyTuple (.cons (.vStr "id") .nil))
  foreignKeysAttr := some (.pyDict
    (.cons "parent" (.pyDict (.cons "parent_id" (.vStr "other_col") .nil)) .nil))
  tableNameAttr := some (.vStr "child")

/-- Extension scenario, succeeding side: the same declaration with the
foreign key column equal to the primary key column id. -/
def extGoodNs : ClassNamespace where
  tableMetaAttr := some (.pyDict
    (.cons "id" (.vFieldMeta fmInt) (.cons "other_col" (.vFieldMeta fmInt) .nil)))
  primaryKeysAttr := some (.pyTuple (.cons (.vStr "id") .nil))
  foreignKeysAttr := some (.pyDict
    (.cons "parent" (.pyDict (.cons "parent_id" (.vStr "id") .nil)) .nil))
  tableNameAttr := some (.vStr "child")

/-- The concrete entity type the succeeding extension scenario registers. -/
def extGoodCls : EntityClass :=
  ⟨[("id", fmInt), ("other_col", fmInt)], ["id"],
   [("parent", [("parent_id", "id")])], "child"⟩

/-- A declaration whose three other pieces are valid but whose table
name is the empty string. -/
def emptyNameNs : ClassNamespace where
  tableMetaAttr := some (.pyDict (.cons "id" (.vFieldMeta fmInt) .nil))
  primaryKeysAttr := some (.pyTuple (.cons (.vStr "id") .nil))
  foreignKeysAttr := some (.pyDict .nil)
  tableNameAttr := some (.vStr "")

/-- The concrete entity type the empty-table-name declaration registers. -/
def emptyNameCls : EntityClass := ⟨[("id", fmInt)], ["id"], [], ""⟩

/-- A declaration like emptyNameNs but with an integer table name. -/
def intNameNs : ClassNamespace where
  tableMetaAttr := some (.pyDict (.cons "id" (.vFieldMeta fmInt) .nil))
  primaryKeysAttr := some (.pyTuple (.cons (.vStr "id") .nil))
  foreignKeysAttr := some (.pyDict .nil)
  tableNameAttr := some (.vInt 7)

/-- A songs-like concrete entity type: integer primary key id,
non-nullable title, nullable note. -/
def songCls : EntityClass :=
  ⟨[("id", fmInt), ("title", fmStr), ("note", fmStrN)], ["id"], [], "songs"⟩

/-- A binary-association-like concrete entity type: two integer
primary key columns that are exactly its two foreign key columns. -/
def pairCls : EntityClass :=
  ⟨[("a", fmInt), ("b", fmInt)], ["a", "b"],
   [("t1", [("id", "a")]), ("t2", [("id", "b")])], "assoc"⟩

/-- An association instance with both key columns populated. -/
def pairInst : EntityInstance := ⟨pairCls, [("a", .vInt 1), ("b", .vInt 2)]⟩

/-- A songs instance with only its primary key populated. -/
def songPkOnly : EntityInstance := ⟨songCls, [("id", .vInt 1)]⟩

/-- A fully populated songs instance. -/
def songFull : EntityInstance :=
  ⟨songCls, [("id", .vInt 1), ("title", .vStr "t"), ("note", .vStr "n")]⟩

/-- The local foreign key columns of the (unique) foreign key
relationship of a dependent entity type, as read by
DependentEntity.get_fk_ref_mapping. -/
def fkColsOf (c : EntityClass) : List String :=
  match c.foreignKeys with
  | [(_, m)] => m.map Prod.snd
  | _ => []

/-!
Shared lemmas about the embedded definitions.
-/

theorem pkMatches_self (pks : List String) (r : Row) :
    pkMatches pks r r = true := by
  simp [pkMatches]

mutual
/-- A hashable Python object contains no mutable container. -/
theorem hashable_no_mutable :
    ∀ o : PyObj, hashable o = true → hasMutable o = false
  | .vInt _, _ => rfl
  | .vStr _, _ => rfl
  | .vBool _, _ => rfl
  | .vNone, _ => rfl
  | .vFieldMeta _, _ => rfl
  | .pyBytes _, _ => rfl
  | .pyTuple l, h => by
      simp only [hashable] at h
      simp only [hasMutable]
      exact hashable_no_mutable_elems l h
  | .pyFrozenset l, h => by
      simp only [hashable] at h
      simp only [hasMutable]
      exact hashable_no_mutable_elems l h

/-- Sequence version of hashable_no_mutable. -/
theorem hashable_no_mutable_elems :
    ∀ l : ObjList, hashableElems l = true → hasMutableElems l = false
  | .nil, _ => rfl
  | .cons h t, hh => by
      simp only [hashableElems, Bool.and_eq_true] at hh
      simp only [hasMutableElems]
      rw [hashable_no_mutable h hh.1, hashable_no_mutable_elems t hh.2]
      rfl
end

mutual
/-- On Python-well-formed object trees containing no pre-existing
mapping proxy, freezing removes every mutable container. -/
theorem freeze_no_mutable :
    ∀ o : PyObj, pyHashWF o = true → proxyFree o = true →
      hasMutable (freeze o) = false
  | .vInt _, _, _ => rfl
  | .vStr _, _, _ => rfl
  | .vBool _, _, _ => rfl
  | .vNone, _, _ => rfl
  | .vFieldMeta _, _, _ => rfl
  | .pyBytes _, _, _ => rfl
  | .pyBytearray _, _, _ => rfl
  | .mpProxy _, _, hp => by simp [proxyFree] at hp
  | .pyDict l, hw, hp => by
      simp only [pyHashWF] at hw
      simp only [proxyFree] at hp
      simp only [freeze, hasMutable]
      exact freeze_no_mutable_entries l hw hp
  | .pyList l, hw, hp => by
      simp only [pyHashWF] at hw
      simp only [proxyFree] at hp
      simp only [freeze, hasMutable]
      exact freeze_no_mutable_elems l hw hp
  | .pyTuple l, hw, hp => by
      simp only [pyHashWF] at hw
      simp only [proxyFree] at hp
      simp only [freeze, hasMutable]
      exact freeze_no_mutable_elems l hw hp
  | .valuesView l, hw, hp => by
      simp only [pyHashWF] at hw
      simp only [proxyFree] at hp
      simp only [freeze, hasMutable]
      exact freeze_no_mutable_elems l hw hp
  | .pySet l, hw, _ => by
      simp only [pyHashWF, Bool.and_eq_true] at hw
      simp only [freeze, hasMutable]
      exact hashable_no_mutable_elems l hw.1
  | .pyFrozenset l, hw, _ => by
      simp only [pyHashWF, Bool.and_eq_true] at hw
      simp only [freeze, hasMutable]
      exact hashable_no_mutable_elems l hw.1
  | .keysView l, hw, _ => by
      simp only [pyHashWF, Bool.and_eq_true] at hw
      simp only [freeze, hasMutable]
      exact hashable_no_mutable_elems l hw.1
  | .itemsView l, hw, hp => by
      simp only [pyHashWF] at hw
      simp only [proxyFree] at hp
      simp only [freeze, hasMutable]
      exact itemPairs_no_mutable l hw hp

/-- Sequence version of freeze_no_mutable. -/
theorem freeze_no_mutable_elems :
    ∀ l : ObjList, pyHashWFElems l = true → proxyFreeElems l = true →
      hasMutableElems (freezeElems l) = false
  | .nil, _, _ => rfl
  | .cons h t, hw, hp => by
      simp only [pyHashWFElems, Bool.and_eq_true] at hw
      simp only [proxyFreeElems, Bool.and_eq_true] at hp
      simp only [freezeElems, hasMutableElems]
      rw [freeze_no_mutable h hw.1 hp.1, freeze_no_mutable_elems t hw.2 hp.2]
      rfl

/-- Entry version of freeze_no_mutable. -/
theorem freeze_no_mutable_entries :
    ∀ l : EntryList, pyHashWFEntries l = true → proxyFreeEntries l = true →
      hasMutableEntries (freezeEntries l) = false
  | .nil, _, _ => rfl
  | .cons _ v t, hw, hp => by
      simp only [pyHashWFEntries, Bool.and_eq_true] at hw
      simp only [proxyFreeEntries, Bool.and_eq_true] at hp
      simp only [freezeEntries, hasMutableEntries]
      rw [freeze_no_mutable v hw.1 hp.1, freeze_no_mutable_entries t hw.2 hp.2]
      rfl

/-- The pair tuples built from an ItemsView carry no mutable container. -/
theorem itemPairs_no_mutable :
    ∀ l : EntryList, pyHashWFEntries l = true → proxyFreeEntries l = true →
      hasMutableElems (itemPairs l) = false
  | .nil, _, _ => rfl
  | .cons k v t, hw, hp => by
      simp only [pyHashWFEntries, Bool.and_eq_true] at hw
      simp only [proxyFreeEntries, Bool.and_eq_true] at hp
      simp only [itemPairs, hasMutableElems, hasMutable]
      rw [freeze_no_mutable v hw.1 hp.1, itemPairs_no_mutable t hw.2 hp.2]
      rfl
end

/-- freeze never produces a string from a non-string. -/
theorem freeze_not_str {v : PyObj} (h : ∀ s, v ≠ .vStr s) (s : String) :
    freeze v ≠ .vStr s := by
  cases v <;> first
    | exact absurd rfl (h _)
    | simp [freeze]

/-- validateTableName rejects every non-string. -/
theorem validateTableName_not_str {w : PyObj} (h : ∀ s, w ≠ .vStr s) :
    validateTableName w = .error .tableNameNotStr := by
  cases w <;> first
    | exact absurd rfl (h _)
    | rfl

@[simp]
theorem except_bind_ok {α β : Type} (a : α) (f : α → Except PyErr β) :
    (Except.ok a >>= f) = f a := rfl

@[simp]
theorem except_bind_err {α β : Type} (e : PyErr) (f : α → Except PyErr β) :
    ((Except.error e : Except PyErr α) >>= f) = Except.error e := rfl

theorem registerDependent_inv {ns : ClassNamespace} {c : EntityClass}
    (h : registerDependent ns = .ok (.concreteType c)) :
    dependentCheck c = .ok () := by
  unfold registerDependent at h
  cases hb : registerBase ns with
  | error e => rw [hb] at h; simp at h
  | ok out =>
      rw [hb, except_bind_ok] at h
      cases out with
      | abstractType => simp at h
      | concreteType c' =>
          dsimp only at h
          cases hdc : dependentCheck c' with
          | error e => rw [hdc] at h; simp at h
          | ok u =>
              cases u
              rw [hdc, except_bind_ok] at h
              have hc : c' = c := by simpa using h
              subst hc
              exact hdc

theorem registerExtension_inv {ns : ClassNamespace} {c : EntityClass}
    (h : registerExtension ns = .ok (.concreteType c)) :
    dependentCheck c = .ok () ∧ extensionCheck c = .ok () := by
  unfold registerExtension at h
  cases hd : registerDependent ns with
  | error e => rw [hd] at h; simp at h
  | ok out =>
      rw [hd, except_bind_ok] at h
      cases out with
      | abstractType => simp at h
      | concreteType c' =>
          dsimp only at h
          cases he : extensionCheck c' with
          | error e => rw [he] at h; simp at h
          | ok u =>
              cases u
              rw [he, except_bind_ok] at h
              have hc : c' = c := by simpa using h
              subst hc
              exact ⟨registerDependent_inv hd, he⟩

theorem dependentCheck_inv {c : EntityClass} (h : dependentCheck c = .ok ()) :
    ∃ t m, c.foreignKeys = [(t, m)]
      ∧ ∀ x ∈ (m.map Prod.snd).dedup, x ∈ c.primaryKeys.dedup := by
  unfold dependentCheck at h
  cases hfk : c.foreignKeys with
  | nil => rw [hfk] at h; simp at h
  | cons hd tl =>
      cases tl with
      | cons b t2 => rw [hfk] at h; simp at h
      | nil =>
          obtain ⟨t, m⟩ := hd
          rw [hfk] at h
          refine ⟨t, m, rfl, ?_⟩
          intro x hx
          simp only at h
          split at h
          · simp at h
          · rename_i hcond
            have hall : ((List.map Prod.snd m).dedup.all fun y =>
                c.primaryKeys.dedup.contains y) = true := by
              rcases Bool.eq_false_or_eq_true ((List.map Prod.snd m).dedup.all
                  fun y => c.primaryKeys.dedup.contains y) with hb | hb
              · exact hb
              · rw [hb] at hcond; simp at hcond
            have := List.all_eq_true.mp hall x hx
            exact List.elem_iff.mp this

theorem extensionCheck_inv {c : EntityClass} {t : String}
    {m : List (String × String)} (h : extensionCheck c = .ok ())
    (hfk : c.foreignKeys = [(t, m)]) :
    ¬((m.map Prod.snd).dedup.length < c.primaryKeys.dedup.length) := by
  unfold extensionCheck at h
  rw [hfk] at h
  simp only at h
  split at h
  · simp at h
  · assumption

theorem insert_ok_inv {i : EntityInstance} {store : List Row} {oc : Bool}
    {st : List Row} {tr : List Stmt}
    (h : insert_to_db i store oc = .ok (st, tr)) :
    ∃ data, validate_fields i = .ok data
      ∧ validate_insert_data i.cls data = .ok ()
      ∧ execInsert i.cls.primaryKeys store data oc = .ok st
      ∧ tr = [.insertStmt i.cls.tableName (data.map Prod.fst) oc] := by
  unfold insert_to_db at h
  cases hv : validate_fields i with
  | error e => rw [hv] at h; simp at h
  | ok data =>
      rw [hv, except_bind_ok] at h
      cases hvi : validate_insert_data i.cls data with
      | error e => rw [hvi] at h; simp at h
      | ok u =>
          cases u
          rw [hvi, except_bind_ok] at h
          cases hex : execInsert i.cls.primaryKeys store data oc with
          | error e => rw [hex] at h; simp at h
          | ok st0 =>
              rw [hex, except_bind_ok] at h
              obtain ⟨h1, h2⟩ : st0 = st
                  ∧ [Stmt.insertStmt i.cls.tableName (data.map Prod.fst) oc]
                    = tr := by simpa using h
              subst h1
              subst h2
              exact ⟨data, rfl, hvi, hex, rfl⟩

/-!
Claim theorems.
-/

/-- C1: false of the code as written.  BaseEntity.__init_subclass__
reads mcls.CONCRETE_ENTITY_ATTR (base.py line 703), an attribute the
metaclass EntityMeta never defines (its constant is named
CONCRETE_ENTITY_FLAG_ATTR, line 24), so every subclass declaration of
BaseEntity - with none, some, or all four metadata pieces - raises
AttributeError instead of producing an abstract or concrete type. -/
theorem C1_every_subclass_declaration_raises :
    ∀ ns : ClassNamespace,
      initSubclassFaithful ns = .error .attributeErrorNoAttr := by
  intro ns
  rfl

/-- C2 counterexample: a class-body value that is already a mapping
proxy is returned unchanged by EntityMeta._freeze without recursing
into it, so a mutable list sheltered behind such a proxy survives
freezing, refuting the claim that every mutable container reachable
from a frozen attribute has been converted to an immutable
counterpart. -/
theorem C2_counterexample_proxy_shelters_mutable :
    freeze (.mpProxy (.cons "cfg" (.pyList .nil) .nil))
      = .mpProxy (.cons "cfg" (.pyList .nil) .nil)
    ∧ hasMutable (freeze (.mpProxy (.cons "cfg" (.pyList .nil) .nil))) = true :=
  ⟨rfl, rfl⟩

/-- C2 as amended: reassigning or deleting any of the four metadata
attributes on a registered entity type raises AttributeError, and
freezing converts every mutable container reachable from the declared
value into an immutable counterpart provided the declared value is a
Python-well-formed tree that does not already contain a mapping proxy
(EntityMeta._freeze returns pre-existing proxies unchanged without
recursing into them). -/
theorem C2_frozen_attrs_immutable_deep_freeze :
    (∀ (clsDictKeys : List String) (name : String) (v : PyObj),
        name ∈ baseFreezeKeys →
        entityMetaSetattr clsDictKeys (some derivedFreezeKeys) name v
          = .error .frozenAttrReassign
        ∧ entityMetaDelattr (some derivedFreezeKeys) name
          = .error .frozenAttrDelete)
    ∧ (∀ o : PyObj, pyHashWF o = true → proxyFree o = true →
        hasMutable (freeze o) = false) := by
  constructor
  · intro clsDictKeys name v hmem
    simp only [baseFreezeKeys, List.mem_cons, List.mem_singleton] at hmem
    rcases hmem with rfl | rfl | rfl | rfl | h
    · exact ⟨rfl, rfl⟩
    · exact ⟨rfl, rfl⟩
    · exact ⟨rfl, rfl⟩
    · exact ⟨rfl, rfl⟩
    · simp at h
  · exact freeze_no_mutable

/-- C2 witness: the amended statement applied at the frozen attribute
name TABLE_META and at a concrete proxy-free dict declaration. -/
theorem C2_frozen_attrs_witness :
    ("TABLE_META" ∈ baseFreezeKeys
      ∧ entityMetaSetattr [] (some derivedFreezeKeys) "TABLE_META"
          (.mpProxy .nil) = .error .frozenAttrReassign
      ∧ entityMetaDelattr (some derivedFreezeKeys) "TABLE_META"
          = .error .frozenAttrDelete)
    ∧ (pyHashWF (.pyDict (.cons "id" (.vFieldMeta fmInt) .nil)) = true
      ∧ proxyFree (.pyDict (.cons "id" (.vFieldMeta fmInt) .nil)) = true
      ∧ hasMutable (freeze (.pyDict (.cons "id" (.vFieldMeta fmInt) .nil)))
          = false) := by
  have hm : "TABLE_META" ∈ baseFreezeKeys := by simp [baseFreezeKeys]
  have h1 := C2_frozen_attrs_immutable_deep_freeze.1 [] "TABLE_META"
    (.mpProxy .nil) hm
  have h2 := C2_frozen_attrs_immutable_deep_freeze.2
    (.pyDict (.cons "id" (.vFieldMeta fmInt) .nil)) rfl rfl
  exact ⟨⟨hm, h1.1, h1.2⟩, rfl, rfl, h2⟩

/-- C8 counterexample: a declaration whose three other pieces are valid
and whose TABLE_NAME is the empty string registers successfully as a
concrete type, refuting the claim that an empty table name is rejected
at declaration time. -/
theorem C8_counterexample_empty_name_registers :
    registerBase emptyNameNs = .ok (.concreteType emptyNameCls) := rfl

/-- C8 as amended: registration fails with a TypeError when the
declared table name is not a string instance - _validate_table_name
checks only isinstance(str) - while any string, the empty string
included, is accepted. -/
theorem C8_table_name_check_is_only_isinstance :
    (∀ (ns : ClassNamespace) (tm pk fk v : PyObj),
        ns.tableMetaAttr = some tm → ns.primaryKeysAttr = some pk →
        ns.foreignKeysAttr = some fk → ns.tableNameAttr = some v →
        (∀ s, v ≠ .vStr s) →
        registerBase ns = .error .tableNameNotStr)
    ∧ registerBase emptyNameNs = .ok (.concreteType emptyNameCls) := by
  constructor
  · intro ns tm pk fk v h1 h2 h3 h4 hns
    obtain ⟨a, b, c, d⟩ := ns
    simp only at h1 h2 h3 h4
    subst h1; subst h2; subst h3; subst h4
    have hv := validateTableName_not_str (freeze_not_str hns)
    simp only [registerBase, freezeNamespace, Option.map,
      initSubclassChecked, hv]
    rfl
  · rfl

/-- C8 witness: the amended statement applied at a declaration whose
table name is the integer 7. -/
theorem C8_table_name_witness :
    registerBase intNameNs = .error .tableNameNotStr :=
  C8_table_name_check_is_only_isinstance.1 intNameNs _ _ _ _
    rfl rfl rfl rfl (by intro s h; cases h)

/-- C4: a concrete extension entity registers only when its local
foreign key columns exactly equal its primary key columns as sets; in
the scenario with primary key (id), registering with foreign key column
other_col fails while registering with foreign key column id succeeds. -/
theorem C4_extension_fk_equals_pk :
    (∀ (ns : ClassNamespace) (c : EntityClass),
        registerExtension ns = .ok (.concreteType c) →
        ∀ x, x ∈ fkColsOf c ↔ x ∈ c.primaryKeys)
    ∧ registerExtension extBadNs = .error .depFkNotSubset
    ∧ registerExtension extGoodNs = .ok (.concreteType extGoodCls) := by
  refine ⟨?_, rfl, rfl⟩
  intro ns c h x
  obtain ⟨hdep, hext⟩ := registerExtension_inv h
  obtain ⟨t, m, hfk, hsub⟩ := dependentCheck_inv hdep
  have hlen := extensionCheck_inv hext hfk
  have hsp : List.Subperm ((m.map Prod.snd).dedup) (c.primaryKeys.dedup) :=
    (List.nodup_dedup (m.map Prod.snd)).subperm (fun x hx => hsub x hx)
  have hperm : List.Perm ((m.map Prod.snd).dedup) (c.primaryKeys.dedup) :=
    hsp.perm_of_length_le (Nat.le_of_not_lt hlen)
  simp only [fkColsOf, hfk]
  constructor
  · intro hx
    exact List.mem_dedup.mp (hperm.mem_iff.mp (List.mem_dedup.mpr hx))
  · intro hx
    exact List.mem_dedup.mp (hperm.mem_iff.mpr (List.mem_dedup.mpr hx))

/-- C4 witness: the necessity direction applied at the succeeding
scenario declaration and the column id. -/
theorem C4_extension_witness :
    "id" ∈ fkColsOf extGoodCls ↔ "id" ∈ extGoodCls.primaryKeys :=
  C4_extension_fk_equals_pk.1 extGoodNs extGoodCls rfl "id"

/-- C3: for every binary association entity instance, patch and upsert
fail unconditionally with NotImplementedError; insert delegates to the
base insert with conflict-ignore forced on regardless of the caller's
argument; and a second insert of the same instance into the store the
first insert produced is a no-op returning the unchanged store. -/
theorem C3_binary_association_insert_only :
    ∀ (i : EntityInstance) (store : List Row) (oc : Bool),
      binaryUpdateFieldsDb i store = .error .notImplementedBinary
      ∧ binaryUpsertToDb i store = .error .notImplementedBinary
      ∧ binaryInsertToDb i store oc = insert_to_db i store true
      ∧ (∀ st tr, binaryInsertToDb i store oc = .ok (st, tr) →
          binaryInsertToDb i st oc = .ok (st, tr)) := by
  intro i store oc
  refine ⟨rfl, rfl, rfl, ?_⟩
  intro st tr h
  unfold binaryInsertToDb at h ⊢
  obtain ⟨data, hv, hvi, hex, htr⟩ := insert_ok_inv h
  have hex2 : execInsert i.cls.primaryKeys st data true = .ok st := by
    unfold execInsert at hex ⊢
    split at hex
    · rename_i hany
      have hst : store = st := by simpa using hex
      subst hst
      simp [hany]
    · rename_i hany
      have hst : store ++ [data] = st := by simpa using hex
      subst hst
      have hmem : data ∈ store ++ [data] :=
        List.mem_append_right store (List.mem_singleton_self data)
      have hany2 : ((store ++ [data]).any fun r =>
          pkMatches i.cls.primaryKeys r data) = true :=
        List.any_eq_true.mpr ⟨data, hmem, pkMatches_self _ _⟩
      simp [hany2]
  unfold insert_to_db
  rw [hv, except_bind_ok, hvi, except_bind_ok, hex2, except_bind_ok, htr]

/-- C3 witness: the idempotence clause applied at a concrete
association instance, inserting into the empty store twice. -/
theorem C3_binary_association_witness :
    binaryInsertToDb pairInst [[("a", .vInt 1), ("b", .vInt 2)]] false
      = .ok ([[("a", .vInt 1), ("b", .vInt 2)]],
             [.insertStmt "assoc" ["a", "b"] true]) :=
  (C3_binary_association_insert_only pairInst [] false).2.2.2
    [[("a", .vInt 1), ("b", .vInt 2)]]
    [.insertStmt "assoc" ["a", "b"] true] rfl

/-- C5: upsert first invokes patch; when patch reports a row was
changed, upsert returns patch's outcome having issued no INSERT; when
patch reports no row changed, upsert continues into insert with
conflict-ignore disabled; in particular an instance with zero populated
non-key columns falls through to that insert rather than terminating as
a no-op. -/
theorem C5_upsert_patch_then_insert :
    ∀ (i : EntityInstance) (store : List Row),
      (∀ st tr, update_fields_db i store = .ok (true, st, tr) →
          upsert_to_db i store = .ok (st, tr)
          ∧ ∀ s ∈ tr, ∀ tbl cols b, s ≠ .insertStmt tbl cols b)
      ∧ (∀ st tr, update_fields_db i store = .ok (false, st, tr) →
          upsert_to_db i store
            = (insert_to_db i st false).map (fun ins => (ins.1, tr ++ ins.2)))
      ∧ (∀ data, validate_fields i = .ok data →
          ((data.map Prod.fst).all fun k => i.cls.primaryKeys.contains k)
            = true →
          update_fields_db i store = .ok (false, store, [])
          ∧ upsert_to_db i store = insert_to_db i store false) := by
  intro i store
  refine ⟨?_, ?_, ?_⟩
  · intro st tr h
    constructor
    · unfold upsert_to_db
      rw [h, except_bind_ok]
      rfl
    · intro s hs tbl cols b
      unfold update_fields_db at h
      cases hv : validate_fields i with
      | error e => rw [hv] at h; simp at h
      | ok data =>
          rw [hv, except_bind_ok] at h
          dsimp only at h
          split at h
          · simp at h
          · have h' := h
            simp only [Except.ok.injEq, Prod.mk.injEq] at h'
            have htr : [Stmt.updateStmt i.cls.tableName
                ((data.map Prod.fst).filter fun k =>
                  !i.cls.primaryKeys.contains k) i.cls.primaryKeys] = tr :=
              h'.2.2
            rw [← htr] at hs
            rcases List.mem_singleton.mp hs with rfl
            intro hcontra
            cases hcontra
  · intro st tr h
    unfold upsert_to_db
    rw [h, except_bind_ok]
    simp only [Bool.false_eq_true, if_false]
    cases hi : insert_to_db i st false with
    | error e => simp [Except.map]
    | ok p => simp [Except.map]
  · intro data hv hall
    have hcols : ((data.map Prod.fst).filter fun k =>
        !i.cls.primaryKeys.contains k) = [] := by
      rw [List.filter_eq_nil_iff]
      intro k hk
      have hc := List.all_eq_true.mp hall k hk
      simp [hc]
      exact List.elem_iff.mp hc
    have hupd : update_fields_db i store = .ok (false, store, []) := by
      unfold update_fields_db
      rw [hv, except_bind_ok, hcols]
      rfl
    refine ⟨hupd, ?_⟩
    unfold upsert_to_db
    rw [hupd, except_bind_ok]
    simp only [Bool.false_eq_true, if_false]
    cases hi : insert_to_db i store false with
    | error e => simp
    | ok p => simp

/-- C5 witness: the zero-non-key-columns clause applied at an instance
whose only populated field is its primary key; the fall-through insert
then fails with MissingRequiredFields because title is required. -/
theorem C5_upsert_witness :
    update_fields_db songPkOnly [] = .ok (false, [], [])
    ∧ upsert_to_db songPkOnly [] = insert_to_db songPkOnly [] false :=
  (C5_upsert_patch_then_insert songPkOnly []).2.2
    [("id", .vInt 1)] rfl rfl

theorem validate_fields_inv {i : EntityInstance}
    {data : List (String × Value)} (h : validate_fields i = .ok data) :
    data = filter_data i.cls (i.cls.tableMeta.map fun kv => (kv.1, getattrD i kv.1))
    ∧ validate_data i.cls data = .ok () := by
  unfold validate_fields at h
  dsimp only at h
  cases hvd : validate_data i.cls (filter_data i.cls
      (i.cls.tableMeta.map fun kv => (kv.1, getattrD i kv.1))) with
  | error e => rw [hvd] at h; simp at h
  | ok u =>
      cases u
      rw [hvd] at h
      have hd : filter_data i.cls
          (i.cls.tableMeta.map fun kv => (kv.1, getattrD i kv.1)) = data := by
        simpa using h
      rw [← hd]
      exact ⟨rfl, hvd⟩

theorem validate_data_fields_pk_present {pks : List String}
    {d : List (String × Value)} :
    ∀ {l : List (String × FieldMeta)},
      validate_data_fields pks d l = .ok () →
      ∀ f fm, (f, fm) ∈ l → f ∈ pks → (alookup d f).isSome = true := by
  intro l
  induction l with
  | nil =>
      intro _ f fm hm
      simp at hm
  | cons hd t ih =>
      intro h f fm hm hpk
      obtain ⟨g, gm⟩ := hd
      unfold validate_data_fields at h
      cases hg : alookup d g with
      | some v =>
          rw [hg] at h
          dsimp only at h
          split at h
          · simp at h
          · rcases List.mem_cons.mp hm with heq | hmt
            · have hf : f = g := congrArg Prod.fst heq
              subst hf
              rw [hg]
              rfl
            · exact ih h f fm hmt hpk
      | none =>
          rw [hg] at h
          dsimp only at h
          split at h
          · simp at h
          · rename_i hc
            rcases List.mem_cons.mp hm with heq | hmt
            · have hf : f = g := congrArg Prod.fst heq
              subst hf
              exact absurd (List.elem_iff.mpr hpk) (by simpa using hc)
            · exact ih h f fm hmt hpk

theorem validate_data_fields_of {pks : List String}
    {d : List (String × Value)} :
    ∀ {l : List (String × FieldMeta)},
      (∀ f fm v, (f, fm) ∈ l → alookup d f = some v →
        fm.is_valid_value v = true) →
      (∀ f fm, (f, fm) ∈ l → f ∈ pks → (alookup d f).isSome = true) →
      validate_data_fields pks d l = .ok () := by
  intro l
  induction l with
  | nil => intro _ _; rfl
  | cons hd t ih =>
      intro h1 h2
      obtain ⟨g, gm⟩ := hd
      unfold validate_data_fields
      cases hg : alookup d g with
      | some v =>
          have hval := h1 g gm v (List.mem_cons_self _ _) hg
          dsimp only
          rw [hval]
          simp only [Bool.not_true, Bool.false_eq_true, if_false]
          exact ih (fun f fm w hm hl => h1 f fm w (List.mem_cons_of_mem _ hm) hl)
            (fun f fm hm hp => h2 f fm (List.mem_cons_of_mem _ hm) hp)
      | none =>
          have hgc : pks.contains g = false := by
            cases hb : pks.contains g with
            | false => rfl
            | true =>
                have := h2 g gm (List.mem_cons_self _ _) (List.elem_iff.mp hb)
                rw [hg] at this
                simp at this
          dsimp only
          rw [hgc]
          simp only [Bool.false_eq_true, if_false]
          exact ih (fun f fm w hm hl => h1 f fm w (List.mem_cons_of_mem _ hm) hl)
            (fun f fm hm hp => h2 f fm (List.mem_cons_of_mem _ hm) hp)

/-- C6: when the populated fields of an instance are exactly its
primary-key fields, patch returns the no-row-changed result having
executed no statement; otherwise it executes exactly one UPDATE of the
populated non-key columns keyed by the primary-key columns and reports
whether a row matching the primary-key values existed. -/
theorem C6_patch_no_op_or_single_update :
    ∀ (i : EntityInstance) (store : List Row) (data : List (String × Value)),
      validate_fields i = .ok data →
      (∀ p ∈ i.cls.primaryKeys, p ∈ i.cls.tableMeta.map Prod.fst) →
      (∀ p ∈ i.cls.primaryKeys, p ∈ data.map Prod.fst)
      ∧ ((∀ k ∈ data.map Prod.fst, k ∈ i.cls.primaryKeys) →
          update_fields_db i store = .ok (false, store, []))
      ∧ (¬(∀ k ∈ data.map Prod.fst, k ∈ i.cls.primaryKeys) →
          ∃ b st, update_fields_db i store
              = .ok (b, st, [.updateStmt i.cls.tableName
                  ((data.map Prod.fst).filter fun k =>
                    !i.cls.primaryKeys.contains k) i.cls.primaryKeys])
            ∧ (b = true ↔ ∃ r ∈ store,
                pkMatches i.cls.primaryKeys r data = true)) := by
  intro i store data hv hwf
  obtain ⟨_, hvd⟩ := validate_fields_inv hv
  unfold validate_data at hvd
  refine ⟨?_, ?_, ?_⟩
  · intro p hp
    obtain ⟨kv, hkv, hfst⟩ := List.mem_map.mp (hwf p hp)
    have := validate_data_fields_pk_present hvd kv.1 kv.2
      (by simpa using hkv) (hfst ▸ hp)
    rw [hfst] at this
    exact alookup_isSome_iff_mem_keys.mp this
  · intro hall
    have hcols : ((data.map Prod.fst).filter fun k =>
        !i.cls.primaryKeys.contains k) = [] := by
      rw [List.filter_eq_nil_iff]
      intro k hk
      have hc : i.cls.primaryKeys.contains k = true :=
        List.elem_iff.mpr (hall k hk)
      simp [hc]
      exact hall k hk
    unfold update_fields_db
    rw [hv, except_bind_ok]
    dsimp only
    rw [hcols]
    rfl
  · intro hnall
    push_neg at hnall
    obtain ⟨k, hk, hknp⟩ := hnall
    have hkc : i.cls.primaryKeys.contains k = false := by
      cases hb : i.cls.primaryKeys.contains k with
      | false => rfl
      | true => exact absurd (List.elem_iff.mp hb) hknp
    have hkmem : k ∈ (data.map Prod.fst).filter
        (fun k => !i.cls.primaryKeys.contains k) :=
      List.mem_filter.mpr ⟨hk, by simp [hkc]; exact hknp⟩
    have hie : ((data.map Prod.fst).filter
        (fun k => !i.cls.primaryKeys.contains k)).isEmpty = false := by
      cases hb : ((data.map Prod.fst).filter
          (fun k => !i.cls.primaryKeys.contains k)).isEmpty with
      | false => rfl
      | true =>
          rw [List.isEmpty_iff] at hb
          rw [hb] at hkmem
          cases hkmem
    refine ⟨decide (0 < (execUpdate i.cls.primaryKeys store
        ((data.map Prod.fst).filter fun k => !i.cls.primaryKeys.contains k)
        data).2),
      (execUpdate i.cls.primaryKeys store
        ((data.map Prod.fst).filter fun k => !i.cls.primaryKeys.contains k)
        data).1, ?_, ?_⟩
    · unfold update_fields_db
      rw [hv, except_bind_ok]
      dsimp only
      rw [hie]
      rfl
    · constructor
      · intro hb
        have h0 : 0 < ((store.filter fun r =>
            pkMatches i.cls.primaryKeys r data).length) :=
          of_decide_eq_true hb
        obtain ⟨r, hr⟩ := List.exists_mem_of_length_pos h0
        have := List.mem_filter.mp hr
        exact ⟨r, this.1, this.2⟩
      · intro ⟨r, hr, hm⟩
        apply decide_eq_true
        have : r ∈ store.filter fun r => pkMatches i.cls.primaryKeys r data :=
          List.mem_filter.mpr ⟨hr, hm⟩
        exact List.length_pos_of_mem this

/-- C6 witness: the no-op clause applied at an instance whose only
populated field is its primary key. -/
theorem C6_patch_witness :
    update_fields_db songPkOnly [] = .ok (false, [], []) :=
  ((C6_patch_no_op_or_single_update songPkOnly [] [("id", .vInt 1)]
      rfl (by decide)).2.1 (by decide))

/-- Modelled from the claim's wording for C7 (spec section 4.5,
set_field): reject unknown names, then reject assigning the unset
sentinel to a primary key, then reject any value whose runtime type
does not satisfy the declared contract, otherwise store.  This is the
refinement target the code is compared against, not a translation of
the source. -/
def claimedSetField (i : EntityInstance) (field_name : String)
    (v : Value) : Except PyErr EntityInstance :=
  match alookup i.cls.tableMeta field_name with
  | Option.none => .error .unknownField
  | some fm =>
      if i.cls.primaryKeys.contains field_name ∧ v = .unsetV then
        .error .pkCannotBeUnset
      else if !fm.is_valid_value v then .error .typeMismatch
      else .ok ⟨i.cls, astore i.attrs field_name v⟩

/-- C7 counterexample: assigning the unset sentinel to the non-key
nullable column note succeeds in the code (the sentinel is stored,
marking the field unpopulated), whereas the claim's clause order
demands a type-mismatch failure because the sentinel's runtime type
satisfies no field contract. -/
theorem C7_counterexample_unset_stored_not_rejected :
    claimedSetField songPkOnly "note" .unsetV = .error .typeMismatch
    ∧ set_field_value songPkOnly "note" .unsetV
        = .ok ⟨songCls, [("id", .vInt 1), ("note", .unsetV)]⟩ :=
  ⟨rfl, rfl⟩

/-- C7 as amended: set_field_value rejects unknown names; rejects the
unset sentinel on primary-key fields but stores it on any other field;
rejects any non-sentinel value failing the declared type contract,
where null satisfies the contract exactly when the field is nullable;
and stores every conforming value. -/
theorem C7_set_field_clauses :
    ∀ (i : EntityInstance) (name : String) (v : Value),
      (alookup i.cls.tableMeta name = Option.none →
          set_field_value i name v = .error .unknownField)
      ∧ (∀ fm, alookup i.cls.tableMeta name = some fm →
          (v = .unsetV → i.cls.primaryKeys.contains name = true →
              set_field_value i name v = .error .pkCannotBeUnset)
          ∧ (v = .unsetV → i.cls.primaryKeys.contains name = false →
              set_field_value i name v = .ok ⟨i.cls, astore i.attrs name v⟩)
          ∧ (v ≠ .unsetV → fm.is_valid_value v = false →
              set_field_value i name v = .error .typeMismatch)
          ∧ (v ≠ .unsetV → fm.is_valid_value v = true →
              set_field_value i name v = .ok ⟨i.cls, astore i.attrs name v⟩)
          ∧ (fm.py_type ≠ .pyNoneType →
              fm.is_valid_value .vNone = fm.nullable)) := by
  intro i name v
  constructor
  · intro hn
    unfold set_field_value
    rw [hn]
  · intro fm hfm
    refine ⟨?_, ?_, ?_, ?_, ?_⟩
    · intro hu hc
      subst hu
      unfold set_field_value
      rw [hfm]
      simp [hc]
      exact List.elem_iff.mp hc
    · intro hu hc
      subst hu
      unfold set_field_value
      rw [hfm]
      simp [hc]
      exact fun hmem => by simp at hc; exact hc hmem
    · intro hu hval
      unfold set_field_value
      rw [hfm]
      dsimp only
      rw [if_neg hu, hval]
      rfl
    · intro hu hval
      unfold set_field_value
      rw [hfm]
      dsimp only
      rw [if_neg hu, hval]
      rfl
    · intro hpt
      obtain ⟨pt, nb⟩ := fm
      cases pt <;> cases nb <;> first
        | rfl
        | exact absurd rfl hpt

/-- C7 witness: the amended clauses applied at concrete instances - a
primary key set to the sentinel fails, a non-key field accepts the
sentinel, and null on the non-nullable title is a type mismatch. -/
theorem C7_set_field_witness :
    set_field_value songPkOnly "id" .unsetV = .error .pkCannotBeUnset
    ∧ set_field_value songPkOnly "note" .unsetV
        = .ok ⟨songCls, [("id", .vInt 1), ("note", .unsetV)]⟩
    ∧ set_field_value songPkOnly "title" .vNone = .error .typeMismatch
    ∧ set_field_value songPkOnly "nope" .vNone = .error .unknownField := by
  refine ⟨?_, ?_, ?_, ?_⟩
  · exact (((C7_set_field_clauses songPkOnly "id" .unsetV).2 fmInt rfl).1
      rfl rfl)
  · exact (((C7_set_field_clauses songPkOnly "note" .unsetV).2 fmStrN rfl).2.1
      rfl rfl)
  · exact (((C7_set_field_clauses songPkOnly "title" .vNone).2 fmStr rfl).2.2.1
      (by intro h; cases h) rfl)
  · exact ((C7_set_field_clauses songPkOnly "nope" .vNone).1 rfl)

/-- C9: constructing an instance from a type-valid field map whose keys
are declared columns with no duplicates, and which populates every
primary key with a non-sentinel value, succeeds; reading back any key
of the map whose entry was not the unset sentinel returns exactly the
supplied value. -/
theorem C9_construct_get_round_trip :
    ∀ (c : EntityClass) (data : List (String × Value)),
      (c.tableMeta.map Prod.fst).Nodup →
      (data.map Prod.fst).Nodup →
      (∀ kv ∈ data, (alookup c.tableMeta kv.1).isSome = true) →
      (∀ kv ∈ data, ∀ fm, alookup c.tableMeta kv.1 = some fm →
          kv.2 ≠ .unsetV → fm.is_valid_value kv.2 = true) →
      (∀ p ∈ c.primaryKeys, ∃ kv ∈ data, kv.1 = p ∧ kv.2 ≠ .unsetV) →
      ∃ inst, entityInit c data = .ok inst
        ∧ ∀ kv ∈ data, kv.2 ≠ .unsetV →
            get_field_value inst kv.1 = .ok kv.2 := by
  intro c data hmnd hnd hkeys hvalid hpk
  have hd_sub : ∀ kv, kv ∈ filter_data c data →
      kv ∈ data ∧ kv.2 ≠ .unsetV := by
    intro kv h
    have := List.mem_filter.mp h
    refine ⟨this.1, ?_⟩
    have h2 := this.2
    simp only [Bool.and_eq_true, decide_eq_true_eq] at h2
    exact h2.2
  have hd_mem : ∀ kv ∈ data, kv.2 ≠ .unsetV → kv ∈ filter_data c data := by
    intro kv h hne
    refine List.mem_filter.mpr ⟨h, ?_⟩
    simp only [Bool.and_eq_true, decide_eq_true_eq]
    exact ⟨hkeys kv h, hne⟩
  have hdnodup : ((filter_data c data).map Prod.fst).Nodup :=
    hnd.sublist ((List.filter_sublist data).map Prod.fst)
  have hvd : validate_data c (filter_data c data) = .ok () := by
    unfold validate_data
    apply validate_data_fields_of
    · intro f fm v hmem hlk
      obtain ⟨hdata', hne⟩ := hd_sub _ (alookup_eq_some_mem hlk)
      exact hvalid (f, v) hdata' fm (mem_alookup_of_nodup hmnd hmem) hne
    · intro f fm hmem hp
      obtain ⟨kv, hkv, hfst, hne⟩ := hpk f hp
      have hkd : kv ∈ filter_data c data := hd_mem kv hkv hne
      rw [← hfst]
      exact alookup_isSome_iff_mem_keys.mpr
        (List.mem_map.mpr ⟨kv, hkd, rfl⟩)
  refine ⟨⟨c, filter_data c data⟩, ?_, ?_⟩
  · unfold entityInit
    dsimp only
    rw [hvd]
  · intro kv hkv hne
    obtain ⟨fm, hfm⟩ := Option.isSome_iff_exists.mp (hkeys kv hkv)
    have halk : alookup (filter_data c data) kv.1 = some kv.2 :=
      mem_alookup_of_nodup hdnodup (hd_mem kv hkv hne)
    have hval := hvalid kv hkv fm hfm hne
    unfold get_field_value
    rw [hfm]
    dsimp only [getattrD]
    rw [halk]
    dsimp only
    rw [if_neg hne, hval]
    rfl

/-- C9 witness: the round trip at a songs instance built from its
primary key, a title, and an unset note entry. -/
theorem C9_round_trip_witness :
    ∃ inst, entityInit songCls
        [("id", .vInt 1), ("title", .vStr "x"), ("note", .unsetV)]
        = .ok inst
      ∧ ∀ kv ∈ [(("id" : String), Value.vInt 1), ("title", .vStr "x"),
          ("note", .unsetV)], kv.2 ≠ .unsetV →
          get_field_value inst kv.1 = .ok kv.2 :=
  C9_construct_get_round_trip songCls
    [("id", .vInt 1), ("title", .vStr "x"), ("note", .unsetV)]
    (by decide) (by decide) (by decide) (by decide) (by decide)

/-- C10: the instance constructor silently discards entries whose key
is not a declared column, and entries whose value is the unset
sentinel, rather than raising; only the get and set accessors reject an
unknown field name. -/
theorem C10_constructor_discards_unknown_and_unset :
    ∀ (c : EntityClass) (data : List (String × Value)) (name : String)
      (attrs : List (String × Value)) (v : Value),
      entityInit c data
        = entityInit c (data.filter fun kv => (alookup c.tableMeta kv.1).isSome)
      ∧ entityInit c data = entityInit c (data.filter fun kv => kv.2 ≠ .unsetV)
      ∧ (alookup c.tableMeta name = Option.none →
          get_field_value ⟨c, attrs⟩ name = .error .unknownField
          ∧ set_field_value ⟨c, attrs⟩ name v = .error .unknownField) := by
  intro c data name attrs v
  refine ⟨?_, ?_, ?_⟩
  · have hfd : filter_data c (data.filter fun kv =>
        (alookup c.tableMeta kv.1).isSome) = filter_data c data := by
      unfold filter_data
      rw [List.filter_filter]
      apply List.filter_congr
      intro kv _
      cases h1 : (alookup c.tableMeta kv.1).isSome <;>
        cases h2 : decide (kv.2 ≠ .unsetV) <;> simp [h1, h2]
    unfold entityInit
    rw [hfd]
  · have hfd : filter_data c (data.filter fun kv => kv.2 ≠ .unsetV)
        = filter_data c data := by
      unfold filter_data
      rw [List.filter_filter]
      apply List.filter_congr
      intro kv _
      cases h1 : (alookup c.tableMeta kv.1).isSome <;>
        cases h2 : decide (kv.2 ≠ .unsetV) <;> simp [h1, h2]
    unfold entityInit
    rw [hfd]
  · intro hn
    constructor
    · unfold get_field_value
      rw [hn]
    · unfold set_field_value
      rw [hn]

/-- C10 witness: an unknown key junk in the construction map is
discarded while the accessors reject it. -/
theorem C10_discard_witness :
    (entityInit songCls [("id", .vInt 1), ("junk", .vStr "x")]
      = entityInit songCls ([("id", .vInt 1), ("junk", .vStr "x")].filter
          fun kv => (alookup songCls.tableMeta kv.1).isSome))
    ∧ get_field_value ⟨songCls, []⟩ "junk" = .error .unknownField
    ∧ set_field_value ⟨songCls, []⟩ "junk" .vNone = .error .unknownField :=
  ⟨(C10_constructor_discards_unknown_and_unset songCls
      [("id", .vInt 1), ("junk", .vStr "x")] "junk" [] .vNone).1,
   ((C10_constructor_discards_unknown_and_unset songCls [] "junk" []
      .vNone).2.2 rfl).1,
   ((C10_constructor_discards_unknown_and_unset songCls [] "junk" []
      .vNone).2.2 rfl).2⟩

end Sp2Genius
